import Mathlib

/-
Verification development for the SecUrAuditz backend (backend/server.js).

The document store is modelled as explicit association lists: a collection of
frameworks (id paired with type tag), a collection of controls, a collection of
audits keyed by audit id, and a flat responses subcollection keyed by the pair
(audit id, control id).  Each HTTP handler that the claims mention is embedded
as a pure function from the store (plus a timestamp argument standing for
Timestamp.now) to the updated store and the HTTP-visible result.  A Firestore
batch is modelled by applying all staged writes at the commit point and none
before it.  JSON values that can be absent, null, or a string are modelled as
Option (Option String): none is an absent field, some none is an explicit null,
and some (some s) is the string s.
-/

set_option maxRecDepth 8000

/-- One questionnaire entry of a control: question text plus the mapping from
option keys to option labels. -/
structure Question where
  question_text : String
  options : List (String × String)
  deriving DecidableEq

/-- A control document from the controls collection. -/
structure Control where
  id : String
  framework_id : String
  control_objective : String
  questionnaires : List Question
  deriving DecidableEq

/-- One entry of the question_responses array stored inside a response
document.  selected_option and option_text are null or a string. -/
structure QuestionResponse where
  question_index : Nat
  question_text : String
  selected_option : Option String
  option_text : Option String
  deriving DecidableEq

/-- A response document of the responses subcollection of an audit. -/
structure ResponseDoc where
  control_id : String
  question_responses : List QuestionResponse
  compliance_status : String
  justification_text : Option String
  maturity_level_selected : Option String
  evidence_path : Option String
  evidence_filename : Option String
  ai_recommendation : Option String
  response_date : Option Nat
  deriving DecidableEq

/-- An audit document.  The plumbing-only fields (description, user id, client
contact block) are not read by any reconciliation code path and are omitted. -/
structure AuditDoc where
  title : String
  domain_type : String
  frameworks_audited : List String
  overall_status : String
  overall_score : Nat
  total_controls_in_audit : Nat
  completed_controls_in_audit : Nat
  created_at : Nat
  updated_at : Nat
  deriving DecidableEq

/-- The whole document store.  frameworks holds (framework id, type) pairs. -/
structure DB where
  frameworks : List (String × String)
  controls : List Control
  audits : List (String × AuditDoc)
  responses : List ((String × String) × ResponseDoc)
  deriving DecidableEq

/-- JavaScript truthiness of a value that is null or a string: null and the
empty string are falsy, every other string is truthy. -/
def truthyStr (s : Option String) : Bool :=
  match s with
  | some v => v != ""
  | none => false

/-- A JSON field of a request body: none is an absent field, some none is an
explicit null, some (some s) is the string s. -/
abbrev JsonField := Option (Option String)

/-- The JavaScript expression x || null on a JSON field holding null or a
string: an absent field, an explicit null, and the empty string all collapse
to null; a non-empty string is kept. -/
def jsOrNull (x : JsonField) : Option String :=
  match x with
  | some (some v) => if v = "" then none else some v
  | _ => none

/-- The JavaScript expression x || d for a string fallback d, as used for
compliance_status || "Not Answered". -/
def jsOrDefault (x : JsonField) (d : String) : String :=
  match x with
  | some (some v) => if v = "" then d else v
  | _ => d

/-- Fuel-indexed splitting of a list into slices of at most 10 elements,
mirroring the loop for (i = 0; i < n; i += chunkSize) { slice(i, i + 10) }.
The fuel starts at the list length, which bounds the number of iterations. -/
def chunksAux : Nat → List String → List (List String)
  | 0, _ => []
  | _, [] => []
  | Nat.succ n, xs => xs.take 10 :: chunksAux n (xs.drop 10)

/-- The chunking of a framework-id list into slices of at most 10 ids, as done
by every batched controls lookup in the source. -/
def chunks10 (xs : List String) : List (List String) :=
  chunksAux xs.length xs

/-- Batched controls lookup: for each chunk of at most 10 framework ids, run
one equality-membership query against framework_id and concatenate the
results, mirroring allControls = allControls.concat(query(chunk)). -/
def listControlsChunked (catalog : List Control) (fids : List String) : List Control :=
  (chunks10 fids).foldl
    (fun acc chunk => acc ++ catalog.filter (fun c => chunk.contains c.framework_id)) []

/-- The sizes of the membership queries issued by the batched lookup: one
query per chunk, carrying that many values. -/
def listControlsQuerySizes (fids : List String) : List Nat :=
  (chunks10 fids).map (fun chunk => chunk.length)

/-- GET /api/frameworks/:type/controls.  The handler resolves the framework
ids of the requested type and, when the list is non-empty, issues a single
membership query carrying the whole id list (server.js line 124), with no
chunking.  The second component records the sizes of the membership queries
issued. -/
def getTypeControls (db : DB) (ty : String) : List Control × List Nat :=
  let frameworkIds := (db.frameworks.filter (fun f => f.2 == ty)).map (fun f => f.1)
  if frameworkIds.isEmpty then ([], [])
  else (db.controls.filter (fun c => frameworkIds.contains c.framework_id), [frameworkIds.length])

/-- The four terminal compliance verdicts accepted by the completeness check. -/
def terminalStatuses : List String := ["Yes", "Partial", "No", "Not Applicable"]

/-- Per-control completeness as computed in both reconciliation paths
(server.js lines 312-321 and 459-475): every question filtered by truthiness
of selected_option, count equal to the number of questions of the control
definition, which must be positive, and compliance_status among the four
terminal verdicts. -/
def controlIsComplete (cdef : Control) (r : ResponseDoc) : Bool :=
  let numQuestions := cdef.questionnaires.length
  let allQuestionsAnswered :=
    decide (0 < numQuestions) &&
      ((r.question_responses.filter (fun qr => truthyStr qr.selected_option)).length
        == numQuestions)
  let overallStatusSet := terminalStatuses.contains r.compliance_status
  allQuestionsAnswered && overallStatusSet

/-- Lookup of a control definition by control id in the fetched definitions,
modelling controlDefinitionsMap.get(controlId).  Control ids are Firestore
document ids and therefore unique in the catalog. -/
def findControlDef (defs : List Control) (cid : String) : Option Control :=
  defs.find? (fun c => c.id == cid)

/-- The completed-controls counter of both reconciliation paths: walk the
response snapshot, look the control definition up by the control_id field,
skip responses whose control is absent from the fetched definitions, and
count the complete ones. -/
def countCompleted (defs : List Control) (resps : List ResponseDoc) : Nat :=
  resps.foldl
    (fun acc r =>
      match findControlDef defs r.control_id with
      | some cdef => if controlIsComplete cdef r then acc + 1 else acc
      | none => acc) 0

/-- JavaScript Math.round over the exact rationals: floor(q + 1/2), rounding
halves toward positive infinity. -/
def mathRound (q : ℚ) : ℤ := ⌊q + 1/2⌋

/-- The aggregate progress percentage of both reconciliation paths:
0 when the denominator is 0, otherwise Math.round((completed / total) * 100).
For nonnegative integer inputs Math.round((c / t) * 100) equals the integer
division (200 * c + t) / (2 * t), which is the form used here so that the
definition evaluates inside the kernel; theorem mathRound_natDiv below proves
the identification with the rounded rational. -/
def overallProgress (completed total : Nat) : Nat :=
  if total = 0 then 0 else (200 * completed + total) / (2 * total)

/-- The status derived from the progress percentage (server.js lines 327 and
479): Completed at 100, In Progress when positive, otherwise Not Started. -/
def overallStatusOf (p : Nat) : String :=
  if p = 100 then "Completed" else if 0 < p then "In Progress" else "Not Started"

/-- Round half away from zero over the rationals, the rounding named by the
specification: floor(q + 1/2) for nonnegative q and the mirrored ceiling for
negative q. -/
def roundHalfAwayFromZero (q : ℚ) : ℤ :=
  if 0 ≤ q then ⌊q + 1/2⌋ else ⌈q - 1/2⌉

/-- Lookup of an audit document by id. -/
def lookupAudit (db : DB) (aid : String) : Option AuditDoc :=
  (db.audits.find? (fun p => p.1 == aid)).map (fun p => p.2)

/-- Lookup of a response document by (audit id, control id). -/
def lookupResponse (db : DB) (aid cid : String) : Option ResponseDoc :=
  (db.responses.find? (fun p => p.1.1 == aid && p.1.2 == cid)).map (fun p => p.2)

/-- The full response snapshot of one audit, modelling a get() on the
responses subcollection. -/
def auditResponses (db : DB) (aid : String) : List ResponseDoc :=
  (db.responses.filter (fun p => p.1.1 == aid)).map (fun p => p.2)

/-- Replacement of the audit document stored under aid, modelling
batch.update on the audit document reference. -/
def setAudit (db : DB) (aid : String) (a : AuditDoc) : DB :=
  { db with audits := db.audits.map (fun p => if p.1 == aid then (aid, a) else p) }

/-- Write of a response document under (aid, cid): replace the stored
document when the key exists, append it otherwise.  The staged set carries a
value for every response field, so the Firestore merge flag has no field left
to preserve and the write amounts to full replacement. -/
def setResponseDoc (db : DB) (aid cid : String) (r : ResponseDoc) : DB :=
  if db.responses.any (fun p => p.1.1 == aid && p.1.2 == cid) then
    { db with responses :=
        db.responses.map (fun p => if p.1.1 == aid && p.1.2 == cid then ((aid, cid), r) else p) }
  else
    { db with responses := db.responses ++ [((aid, cid), r)] }

/-- Result of GET /api/audits/:id. -/
inductive GetAuditResult where
  | notFound
  | ok (audit : AuditDoc) (responses : List ResponseDoc)
  deriving DecidableEq

/-- The overall_score carried by a GET /api/audits/:id result. -/
def resultScore : GetAuditResult → Option Nat
  | GetAuditResult.ok a _ => some a.overall_score
  | GetAuditResult.notFound => none

/-- GET /api/audits/:id (server.js lines 277-349).  Fetch the audit, fetch the
controls of its audited frameworks in chunks of 10, take the full response
snapshot, recount the complete controls, derive progress and status using the
length of the fetched control list as denominator, and write the three summary
fields plus updated_at back only when at least one of the three differs from
the stored document. -/
def getAudit (db : DB) (now : Nat) (aid : String) : DB × GetAuditResult :=
  match lookupAudit db aid with
  | none => (db, GetAuditResult.notFound)
  | some audit =>
    let allControlsForAudit := listControlsChunked db.controls audit.frameworks_audited
    let totalExpectedControls := allControlsForAudit.length
    let resps := auditResponses db aid
    let completedControlsCount := countCompleted allControlsForAudit resps
    let overallProgressNow := overallProgress completedControlsCount totalExpectedControls
    let overallStatusNow := overallStatusOf overallProgressNow
    if audit.overall_score ≠ overallProgressNow ∨ audit.overall_status ≠ overallStatusNow
        ∨ audit.completed_controls_in_audit ≠ completedControlsCount then
      let audit2 := { audit with
        overall_score := overallProgressNow
        overall_status := overallStatusNow
        completed_controls_in_audit := completedControlsCount
        updated_at := now }
      (setAudit db aid audit2, GetAuditResult.ok audit2 resps)
    else
      (db, GetAuditResult.ok audit resps)

/-- Result of PUT /api/audits/:id/responses. -/
inductive PutResult where
  | badRequest
  | notFound
  | ok (newOverallProgress : Nat) (newOverallStatus : String)
  deriving DecidableEq

/-- Request body of PUT /api/audits/:id/responses.  question_responses is
some list exactly when the body carries an array there. -/
structure PutRequestBody where
  control_id : JsonField
  question_responses : Option (List QuestionResponse)
  compliance_status : JsonField
  justification_text : JsonField
  maturity_level_selected : JsonField
  evidence_path : JsonField
  evidence_filename : JsonField
  ai_recommendation : JsonField
  deriving DecidableEq

/-- The response document staged by PUT /api/audits/:id/responses (server.js
lines 415-425): every field passes through x || null, compliance_status
through x || "Not Answered", and response_date is stamped with now. -/
def stagedResponse (now : Nat) (cid : String) (qrs : List QuestionResponse)
    (body : PutRequestBody) : ResponseDoc :=
  { control_id := cid
    question_responses := qrs
    compliance_status := jsOrDefault body.compliance_status "Not Answered"
    justification_text := jsOrNull body.justification_text
    maturity_level_selected := jsOrNull body.maturity_level_selected
    evidence_path := jsOrNull body.evidence_path
    evidence_filename := jsOrNull body.evidence_filename
    ai_recommendation := jsOrNull body.ai_recommendation
    response_date := some now }

/-- PUT /api/audits/:id/responses (server.js lines 396-494).  Validation
rejects a falsy control_id or a missing question_responses array.  The
response write is staged, then the audit is fetched; a missing audit returns
NotFound with the batch never committed.  The completed count is recomputed
over the response snapshot read before the commit, the denominator is the
stored total_controls_in_audit, and the audit summary update is staged
unconditionally; the commit applies both staged writes.  Lines 435-441
compute the completeness of the incoming response alone, but those values are
never read afterwards and are omitted here. -/
def putAuditResponse (db : DB) (now : Nat) (aid : String) (body : PutRequestBody) :
    DB × PutResult :=
  match body.control_id, body.question_responses with
  | some (some cid), some qrs =>
    if cid = "" then (db, PutResult.badRequest)
    else
      let newResp := stagedResponse now cid qrs body
      match lookupAudit db aid with
      | none => (db, PutResult.notFound)
      | some audit =>
        let totalExpectedControls := audit.total_controls_in_audit
        let allResponses := auditResponses db aid
        let allControlsForAudit := listControlsChunked db.controls audit.frameworks_audited
        let currentCompletedControlsCount := countCompleted allControlsForAudit allResponses
        let newOverallProgress :=
          overallProgress currentCompletedControlsCount totalExpectedControls
        let newOverallStatus := overallStatusOf newOverallProgress
        let audit2 := { audit with
          overall_score := newOverallProgress
          overall_status := newOverallStatus
          completed_controls_in_audit := currentCompletedControlsCount
          updated_at := now }
        (setAudit (setResponseDoc db aid cid newResp) aid audit2,
          PutResult.ok newOverallProgress newOverallStatus)
  | _, _ => (db, PutResult.badRequest)

/-- The placeholder response document seeded for one control when an audit is
created (server.js lines 228-243). -/
def initialResponseData (c : Control) : ResponseDoc :=
  { control_id := c.id
    question_responses := c.questionnaires.enum.map (fun p =>
      { question_index := p.1
        question_text := p.2.question_text
        selected_option := none
        option_text := none })
    compliance_status := "Not Answered"
    justification_text := none
    maturity_level_selected := none
    evidence_path := none
    evidence_filename := none
    ai_recommendation := none
    response_date := none }

/-- Result of POST /api/audits. -/
inductive CreateAuditResult where
  | badRequest
  | noFrameworks
  | created (audit : AuditDoc)
  deriving DecidableEq

/-- POST /api/audits (server.js lines 169-255).  Validation requires title,
domain type, user id and client company name.  The frameworks of the domain
type are resolved; with none found the handler returns 404.  The controls of
those frameworks are fetched in chunks of 10, the audit document is created
with total_controls_in_audit set to the fetched count, and one placeholder
response per fetched control is written in a single batch. -/
def createAudit (db : DB) (now : Nat) (newId : String)
    (title domain_type userId client_company_name : String) : DB × CreateAuditResult :=
  if title = "" ∨ domain_type = "" ∨ userId = "" ∨ client_company_name = "" then
    (db, CreateAuditResult.badRequest)
  else
    let frameworksAuditedIds := (db.frameworks.filter (fun f => f.2 == domain_type)).map (fun f => f.1)
    if frameworksAuditedIds.isEmpty then (db, CreateAuditResult.noFrameworks)
    else
      let allControlsForDomain := listControlsChunked db.controls frameworksAuditedIds
      let newAudit : AuditDoc := {
        title := title
        domain_type := domain_type
        frameworks_audited := frameworksAuditedIds
        overall_status := "Not Started"
        overall_score := 0
        total_controls_in_audit := allControlsForDomain.length
        completed_controls_in_audit := 0
        created_at := now
        updated_at := now }
      let db2 := { db with
        audits := db.audits ++ [(newId, newAudit)]
        responses := db.responses ++
          allControlsForDomain.map (fun c => ((newId, c.id), initialResponseData c)) }
      (db2, CreateAuditResult.created newAudit)

/-- GET /api/audits/:auditId/responses/:controlId (server.js lines 352-392).
A stored response is returned as is; an absent response is a normal state and
yields a synthesized document with status Not Answered and question_responses
seeded from the control definition with null answers. -/
def getControlResponse (db : DB) (aid cid : String) : ResponseDoc :=
  match lookupResponse db aid cid with
  | some r => r
  | none =>
    let qs := match db.controls.find? (fun c => c.id == cid) with
      | some cdef => cdef.questionnaires
      | none => []
    { control_id := cid
      question_responses := qs.enum.map (fun p =>
        { question_index := p.1
          question_text := p.2.question_text
          selected_option := none
          option_text := none })
      compliance_status := "Not Answered"
      justification_text := some ""
      maturity_level_selected := none
      evidence_path := none
      evidence_filename := none
      ai_recommendation := none
      response_date := none }

/-- The summary triple recomputed by the read-triggered reconciliation of
GET /api/audits/:id: completed count over the fetched definitions, progress
with the length of the fetched control list as denominator, derived status. -/
def freshSummary (db : DB) (audit : AuditDoc) (aid : String) : Nat × String × Nat :=
  let cat := listControlsChunked db.controls audit.frameworks_audited
  let cnt := countCompleted cat (auditResponses db aid)
  let p := overallProgress cnt cat.length
  (p, overallStatusOf p, cnt)

/-- The summary triple recomputed by the write-triggered reconciliation of
PUT /api/audits/:id/responses: same completed count, but the stored
total_controls_in_audit as denominator. -/
def putSummary (db : DB) (audit : AuditDoc) (aid : String) : Nat × String × Nat :=
  let cat := listControlsChunked db.controls audit.frameworks_audited
  let cnt := countCompleted cat (auditResponses db aid)
  let p := overallProgress cnt audit.total_controls_in_audit
  (p, overallStatusOf p, cnt)

/-- The per-control completeness predicate exactly as the specification words
it: answeredCount counts entries whose selected_option is non-null. -/
def specIsCompleteNonNull (c : Control) (r : ResponseDoc) : Bool :=
  decide (0 < c.questionnaires.length) &&
    ((r.question_responses.filter (fun qr => qr.selected_option.isSome)).length
      == c.questionnaires.length) &&
    ["Yes", "Partial", "No", "Not Applicable"].contains r.compliance_status

/-- The amended per-control completeness predicate: an entry counts as
answered exactly when selected_option is a non-null, non-empty string, which
is the JavaScript truthiness test applied by the source. -/
def specIsCompleteTruthy (c : Control) (r : ResponseDoc) : Bool :=
  decide (0 < c.questionnaires.length) &&
    ((r.question_responses.filter
        (fun qr => qr.selected_option.isSome && qr.selected_option != some "")).length
      == c.questionnaires.length) &&
    ["Yes", "Partial", "No", "Not Applicable"].contains r.compliance_status

/- Concrete fixtures used by the counterexamples and witnesses below. -/

/-- A one-question questionnaire entry. -/
def qYesNo : Question := { question_text := "Q1", options := [("a", "Yes"), ("b", "No")] }

/-- A second questionnaire entry. -/
def qScale : Question := { question_text := "Q2", options := [("a", "Low"), ("b", "High")] }

/-- A catalog control with one question, member of framework f1. -/
def ctrlOne : Control :=
  { id := "c1", framework_id := "f1", control_objective := "Objective 1",
    questionnaires := [qYesNo] }

/-- A catalog control with two questions, member of framework f1. -/
def ctrlTwo : Control :=
  { id := "c2", framework_id := "f1", control_objective := "Objective 2",
    questionnaires := [qYesNo, qScale] }

/-- An answered questionnaire entry. -/
def qrAnswered : QuestionResponse :=
  { question_index := 0, question_text := "Q1", selected_option := some "a",
    option_text := some "Yes" }

/-- A complete response for control c1: its single question answered and a
terminal verdict chosen. -/
def respComplete : ResponseDoc :=
  { control_id := "c1", question_responses := [qrAnswered], compliance_status := "Yes",
    justification_text := some "keep", maturity_level_selected := some "3",
    evidence_path := none, evidence_filename := none, ai_recommendation := none,
    response_date := some 1 }

/-- A questionnaire entry whose selected_option is the empty string:
non-null, yet falsy in JavaScript. -/
def qrEmptySel : QuestionResponse :=
  { question_index := 0, question_text := "Q1", selected_option := some "",
    option_text := none }

/-- A response whose single question carries the empty string as
selected_option, with a terminal verdict chosen. -/
def respEmptySel : ResponseDoc :=
  { control_id := "c1", question_responses := [qrEmptySel],
    compliance_status := "Yes", justification_text := none,
    maturity_level_selected := none, evidence_path := none, evidence_filename := none,
    ai_recommendation := none, response_date := some 1 }

/-- An audit whose persisted summary already matches the recomputed one for
dbSynced. -/
def auditSynced : AuditDoc :=
  { title := "A1", domain_type := "Cloud", frameworks_audited := ["f1"],
    overall_status := "Completed", overall_score := 100, total_controls_in_audit := 1,
    completed_controls_in_audit := 1, created_at := 0, updated_at := 0 }

/-- An audit created when the catalog still held 2 controls for f1, of which
only one remains. -/
def auditStale : AuditDoc :=
  { title := "A2", domain_type := "Cloud", frameworks_audited := ["f1"],
    overall_status := "Not Started", overall_score := 0, total_controls_in_audit := 2,
    completed_controls_in_audit := 0, created_at := 0, updated_at := 0 }

/-- A freshly created audit over one control with nothing answered yet. -/
def auditFresh : AuditDoc :=
  { title := "A3", domain_type := "Cloud", frameworks_audited := ["f1"],
    overall_status := "Not Started", overall_score := 0, total_controls_in_audit := 1,
    completed_controls_in_audit := 0, created_at := 0, updated_at := 0 }

/-- A store whose audit a1 is fully in sync with its single complete
response. -/
def dbSynced : DB :=
  { frameworks := [("f1", "Cloud")], controls := [ctrlOne],
    audits := [("a1", auditSynced)], responses := [(("a1", "c1"), respComplete)] }

/-- A store whose audit a2 snapshotted 2 controls while the catalog now holds
only one for its frameworks. -/
def dbStale : DB :=
  { frameworks := [("f1", "Cloud")], controls := [ctrlOne],
    audits := [("a2", auditStale)], responses := [(("a2", "c1"), respComplete)] }

/-- A store holding the empty-string selection response under audit a3. -/
def dbEmptySel : DB :=
  { frameworks := [("f1", "Cloud")], controls := [ctrlOne],
    audits := [("a3", auditFresh)], responses := [(("a3", "c1"), respEmptySel)] }

/-- A store with two catalog controls where control c2 has no recorded
response under audit a5. -/
def dbTwoControls : DB :=
  { frameworks := [("f1", "Cloud")], controls := [ctrlOne, ctrlTwo],
    audits := [("a5", auditStale)], responses := [(("a5", "c1"), respComplete)] }

/-- A store whose frameworks collection holds eleven frameworks of one type. -/
def dbElevenFrameworks : DB :=
  { frameworks := [("f1", "Cloud"), ("f2", "Cloud"), ("f3", "Cloud"), ("f4", "Cloud"),
      ("f5", "Cloud"), ("f6", "Cloud"), ("f7", "Cloud"), ("f8", "Cloud"), ("f9", "Cloud"),
      ("f10", "Cloud"), ("f11", "Cloud")],
    controls := [], audits := [], responses := [] }

/-- A request body resubmitting the already stored answers for c1 unchanged. -/
def putSameBody : PutRequestBody :=
  { control_id := some (some "c1"), question_responses := some [qrAnswered],
    compliance_status := some (some "Yes"), justification_text := some (some "keep"),
    maturity_level_selected := some (some "3"), evidence_path := none,
    evidence_filename := none, ai_recommendation := none }

/-- A request body for c1 that supplies a status but leaves
justification_text out of the body entirely. -/
def putNoJust : PutRequestBody :=
  { control_id := some (some "c1"), question_responses := some [qrAnswered],
    compliance_status := some (some "Yes"), justification_text := none,
    maturity_level_selected := none, evidence_path := none,
    evidence_filename := none, ai_recommendation := none }

/-- A request body naming a control id that belongs to no catalog control of
the audited frameworks. -/
def bodyForeign : PutRequestBody :=
  { control_id := some (some "c9"), question_responses := some [],
    compliance_status := none, justification_text := none,
    maturity_level_selected := none, evidence_path := none,
    evidence_filename := none, ai_recommendation := none }

/-
Theorems.  Helper lemmas come first, then one theorem per claim with its
witness or counterexample.
-/

theorem mathRound_natDiv (c t : Nat) (ht : t ≠ 0) :
    (mathRound (((c : ℚ) / t) * 100)).toNat = (200 * c + t) / (2 * t) := by
  have h1 : ((c : ℚ) / t) * 100 + 1/2 = ((200 * c + t : ℕ) : ℚ) / ((2 * t : ℕ) : ℚ) := by
    have htQ : (t : ℚ) ≠ 0 := Nat.cast_ne_zero.mpr ht
    push_cast
    field_simp
    ring
  unfold mathRound
  rw [h1, Int.floor_toNat, Nat.floor_div_eq_div]

theorem overallProgress_eq_round (c t : Nat) (ht : t ≠ 0) :
    overallProgress c t = (mathRound (((c : ℚ) / t) * 100)).toNat := by
  rw [mathRound_natDiv c t ht]
  unfold overallProgress
  rw [if_neg ht]

theorem overallProgress_le_100 (c t : Nat) (h : c ≤ t) : overallProgress c t ≤ 100 := by
  unfold overallProgress
  split
  · exact Nat.zero_le 100
  · rename_i ht
    have h2t : 0 < 2 * t := by omega
    have hlt : (200 * c + t) / (2 * t) < 101 :=
      (Nat.div_lt_iff_lt_mul h2t).mpr (by omega)
    omega

theorem overallStatusOf_cases (p : Nat) (hp : p ≤ 100) :
    (overallStatusOf p = "Not Started" ↔ p = 0)
  ∧ (overallStatusOf p = "In Progress" ↔ 1 ≤ p ∧ p ≤ 99)
  ∧ (overallStatusOf p = "Completed" ↔ p = 100) := by
  by_cases h100 : p = 100
  · subst h100; decide
  · by_cases h0 : p = 0
    · subst h0; decide
    · have h1 : 1 ≤ p := by omega
      have h99 : p ≤ 99 := by omega
      unfold overallStatusOf
      rw [if_neg h100, if_pos (by omega : 0 < p)]
      exact ⟨⟨fun h => absurd h (by decide), fun h => absurd h (by omega)⟩,
        ⟨fun _ => ⟨h1, h99⟩, fun _ => rfl⟩,
        ⟨fun h => absurd h (by decide), fun h => absurd h (by omega)⟩⟩

theorem listControlsQuerySizes_le_10 (fids : List String) :
    ∀ n ∈ listControlsQuerySizes fids, n ≤ 10 := by
  unfold listControlsQuerySizes chunks10
  generalize fids.length = fuel
  induction fuel generalizing fids with
  | zero => simp [chunksAux]
  | succ k ih =>
    cases fids with
    | nil => simp [chunksAux]
    | cons x xs =>
      intro n hn
      simp only [chunksAux, List.map_cons, List.mem_cons] at hn
      rcases hn with h | h
      · subst h
        simp [List.length_take_le]
      · exact ih ((x :: xs).drop 10) n h

theorem setResponseDoc_audits (db : DB) (aid cid : String) (r : ResponseDoc) :
    (setResponseDoc db aid cid r).audits = db.audits := by
  unfold setResponseDoc
  split <;> rfl

theorem lookupAudit_setResponseDoc (db : DB) (aid cid x : String) (r : ResponseDoc) :
    lookupAudit (setResponseDoc db aid cid r) x = lookupAudit db x := by
  unfold lookupAudit
  rw [setResponseDoc_audits]

theorem lookupResponse_setAudit (db : DB) (aid : String) (a : AuditDoc) (x y : String) :
    lookupResponse (setAudit db aid a) x y = lookupResponse db x y := rfl

theorem find?_update_audits (l : List (String × AuditDoc)) (aid : String) (a : AuditDoc)
    (h : (l.find? (fun p => p.1 == aid)).isSome) :
    (l.map (fun p => if p.1 == aid then (aid, a) else p)).find? (fun p => p.1 == aid)
      = some (aid, a) := by
  induction l with
  | nil => simp at h
  | cons x xs ih =>
    by_cases hx : (x.1 == aid) = true
    · simp [List.find?, hx]
    · have hx' : (x.1 == aid) = false := by simpa using hx
      simp only [List.find?, hx'] at h
      simp only [List.map_cons, hx', Bool.false_eq_true, if_false, List.find?]
      exact ih h

theorem lookupAudit_setAudit_self (db : DB) (aid : String) (a : AuditDoc)
    (h : (lookupAudit db aid).isSome) :
    lookupAudit (setAudit db aid a) aid = some a := by
  have hfs : (db.audits.find? (fun p => p.1 == aid)).isSome := by
    unfold lookupAudit at h
    cases hfind : db.audits.find? (fun p => p.1 == aid) with
    | none => rw [hfind] at h; simp at h
    | some y => rfl
  unfold lookupAudit setAudit
  rw [find?_update_audits db.audits aid a hfs]
  rfl

theorem key_beq_false (aid cid a c : String) (hne : ¬(aid = a ∧ cid = c)) :
    (aid == a && cid == c) = false := by
  cases hb : (aid == a && cid == c) with
  | false => rfl
  | true =>
    exfalso
    simp only [Bool.and_eq_true, beq_iff_eq] at hb
    exact hne hb

theorem find?_update_responses_self (l : List ((String × String) × ResponseDoc))
    (aid cid : String) (r : ResponseDoc)
    (h : (l.find? (fun p => p.1.1 == aid && p.1.2 == cid)).isSome) :
    (l.map (fun p => if p.1.1 == aid && p.1.2 == cid then ((aid, cid), r) else p)).find?
        (fun p => p.1.1 == aid && p.1.2 == cid) = some ((aid, cid), r) := by
  induction l with
  | nil => simp at h
  | cons x xs ih =>
    by_cases hx : (x.1.1 == aid && x.1.2 == cid) = true
    · simp [List.find?, hx]
    · have hx' : (x.1.1 == aid && x.1.2 == cid) = false := by simpa using hx
      simp only [List.find?, hx'] at h
      simp only [List.map_cons, hx', Bool.false_eq_true, if_false, List.find?]
      exact ih h

theorem find?_update_responses_other (l : List ((String × String) × ResponseDoc))
    (aid cid a c : String) (r : ResponseDoc) (hne : ¬(aid = a ∧ cid = c)) :
    (l.map (fun p => if p.1.1 == aid && p.1.2 == cid then ((aid, cid), r) else p)).find?
        (fun p => p.1.1 == a && p.1.2 == c)
      = l.find? (fun p => p.1.1 == a && p.1.2 == c) := by
  induction l with
  | nil => rfl
  | cons x xs ih =>
    by_cases hx : (x.1.1 == aid && x.1.2 == cid) = true
    · have hxk : x.1.1 = aid ∧ x.1.2 = cid := by
        simpa only [Bool.and_eq_true, beq_iff_eq] using hx
      have hfalse : (aid == a && cid == c) = false := key_beq_false aid cid a c hne
      have hpx : (x.1.1 == a && x.1.2 == c) = false := by
        rw [hxk.1, hxk.2]
        exact hfalse
      simp only [List.map_cons, hx, if_true, List.find?, hfalse, hpx]
      exact ih
    · have hx' : (x.1.1 == aid && x.1.2 == cid) = false := by simpa using hx
      simp only [List.map_cons, hx', Bool.false_eq_true, if_false, List.find?]
      cases hpx : (x.1.1 == a && x.1.2 == c) with
      | true => simp only [hpx]
      | false =>
        simp only [hpx]
        exact ih

theorem lookupResponse_setResponseDoc_self (db : DB) (aid cid : String) (r : ResponseDoc) :
    lookupResponse (setResponseDoc db aid cid r) aid cid = some r := by
  unfold lookupResponse setResponseDoc
  by_cases hany : db.responses.any (fun p => p.1.1 == aid && p.1.2 == cid)
  · rw [if_pos hany]
    have hfs : (db.responses.find? (fun p => p.1.1 == aid && p.1.2 == cid)).isSome := by
      rw [List.find?_isSome]
      simpa [List.any_eq_true] using hany
    rw [find?_update_responses_self db.responses aid cid r hfs]
    rfl
  · rw [if_neg hany]
    have hnone : db.responses.find? (fun p => p.1.1 == aid && p.1.2 == cid) = none := by
      rw [List.find?_eq_none]
      intro x hx hpx
      exact hany (List.any_eq_true.mpr ⟨x, hx, hpx⟩)
    simp only [List.find?_append, hnone]
    simp [List.find?]

theorem lookupResponse_setResponseDoc_other (db : DB) (aid cid a c : String)
    (r : ResponseDoc) (hne : ¬(aid = a ∧ cid = c)) :
    lookupResponse (setResponseDoc db aid cid r) a c = lookupResponse db a c := by
  unfold lookupResponse setResponseDoc
  by_cases hany : db.responses.any (fun p => p.1.1 == aid && p.1.2 == cid)
  · rw [if_pos hany, find?_update_responses_other db.responses aid cid a c r hne]
  · rw [if_neg hany]
    have hfalse : (aid == a && cid == c) = false := key_beq_false aid cid a c hne
    simp only [List.find?_append]
    have hsingle : ([((aid, cid), r)].find? (fun p => p.1.1 == a && p.1.2 == c)) = none := by
      simp [List.find?, hfalse]
    rw [hsingle]
    simp

theorem getAudit_of_lookup (db : DB) (now : Nat) (aid : String) (audit : AuditDoc)
    (h : lookupAudit db aid = some audit) :
    getAudit db now aid =
      if audit.overall_score ≠ (freshSummary db audit aid).1
          ∨ audit.overall_status ≠ (freshSummary db audit aid).2.1
          ∨ audit.completed_controls_in_audit ≠ (freshSummary db audit aid).2.2 then
        (setAudit db aid { audit with
            overall_score := (freshSummary db audit aid).1
            overall_status := (freshSummary db audit aid).2.1
            completed_controls_in_audit := (freshSummary db audit aid).2.2
            updated_at := now },
          GetAuditResult.ok { audit with
            overall_score := (freshSummary db audit aid).1
            overall_status := (freshSummary db audit aid).2.1
            completed_controls_in_audit := (freshSummary db audit aid).2.2
            updated_at := now } (auditResponses db aid))
      else (db, GetAuditResult.ok audit (auditResponses db aid)) := by
  unfold getAudit freshSummary
  rw [h]

theorem putAuditResponse_of_valid (db : DB) (now : Nat) (aid : String) (audit : AuditDoc)
    (body : PutRequestBody) (cid : String) (qrs : List QuestionResponse)
    (h : lookupAudit db aid = some audit)
    (hc : body.control_id = some (some cid)) (hcne : cid ≠ "")
    (hq : body.question_responses = some qrs) :
    putAuditResponse db now aid body =
      (setAudit (setResponseDoc db aid cid (stagedResponse now cid qrs body)) aid
        { audit with
            overall_score := (putSummary db audit aid).1
            overall_status := (putSummary db audit aid).2.1
            completed_controls_in_audit := (putSummary db audit aid).2.2
            updated_at := now },
        PutResult.ok (putSummary db audit aid).1 (putSummary db audit aid).2.1) := by
  unfold putAuditResponse putSummary
  simp only [hc, hq, h, if_neg hcne]

/-- C4: the aggregate computation returns 0 when the denominator is 0 and
otherwise the round-half-away-from-zero of the percentage (33 and 67 on the
two concrete inputs of the claim), and the derived status is Not Started
exactly at progress 0, In Progress exactly in 1..99 and Completed exactly at
100. -/
theorem aggregate_progress_and_status_spec (c t : Nat) (hct : c ≤ t) :
    overallProgress c 0 = 0
  ∧ (t ≠ 0 → (overallProgress c t : ℤ) = roundHalfAwayFromZero ((100 * (c : ℚ)) / (t : ℚ)))
  ∧ overallProgress 1 3 = 33 ∧ overallProgress 2 3 = 67
  ∧ (overallStatusOf (overallProgress c t) = "Not Started" ↔ overallProgress c t = 0)
  ∧ (overallStatusOf (overallProgress c t) = "In Progress" ↔
      1 ≤ overallProgress c t ∧ overallProgress c t ≤ 99)
  ∧ (overallStatusOf (overallProgress c t) = "Completed" ↔ overallProgress c t = 100) := by
  have hle := overallProgress_le_100 c t hct
  obtain ⟨hs1, hs2, hs3⟩ := overallStatusOf_cases (overallProgress c t) hle
  refine ⟨by simp [overallProgress], ?_, by decide, by decide, hs1, hs2, hs3⟩
  intro ht
  have hq : (0:ℚ) ≤ (100 * (c : ℚ)) / (t : ℚ) := by positivity
  have heq : (100 * (c : ℚ)) / (t : ℚ) = ((c : ℚ) / t) * 100 := by ring
  rw [roundHalfAwayFromZero, if_pos hq, heq, overallProgress_eq_round c t ht]
  have hnn : (0:ℤ) ≤ mathRound (((c : ℚ) / t) * 100) := by
    unfold mathRound
    exact Int.le_floor.mpr (by push_cast; positivity)
  rw [Int.toNat_of_nonneg hnn]
  rfl

/-- C4 witness at the concrete input completedCount = 1, total = 3. -/
theorem aggregate_progress_and_status_spec_witness :
    overallStatusOf (overallProgress 1 3) = "In Progress" ↔
      1 ≤ overallProgress 1 3 ∧ overallProgress 1 3 ≤ 99 :=
  (aggregate_progress_and_status_spec 1 3 (by decide)).2.2.2.2.2.1

/-- C5 counterexample: with one complete control out of 1000 expected, the
rounded progress is 0 although completedCount is not 0, so partially complete
audits do reach the 0 boundary. -/
theorem progress_boundary_counterexample :
    0 < 1000 ∧ (1:Nat) ≤ 1000 ∧ overallProgress 1 1000 = 0 ∧ (1:Nat) ≠ 0 := by decide

/-- C5 amended: for a positive denominator the rounded progress is 0 exactly
when 200 times the completed count falls below the total, and 100 exactly
when it reaches 199 times the total; both boundary values are reachable with
a partially complete audit. -/
theorem progress_boundary_characterization (c t : Nat) (ht : 0 < t) (hct : c ≤ t) :
    (overallProgress c t = 0 ↔ 200 * c < t)
  ∧ (overallProgress c t = 100 ↔ 199 * t ≤ 200 * c) := by
  have ht' : t ≠ 0 := by omega
  have hle := overallProgress_le_100 c t hct
  have h2t : 0 < 2 * t := by omega
  constructor
  · unfold overallProgress
    rw [if_neg ht', Nat.div_eq_zero_iff (by omega : 0 < 2 * t)]
    omega
  · constructor
    · intro h
      have h100 : 100 ≤ (200 * c + t) / (2 * t) := by
        unfold overallProgress at h
        rw [if_neg ht'] at h
        omega
      have := (Nat.le_div_iff_mul_le h2t).mp h100
      omega
    · intro h
      have h100 : 100 ≤ overallProgress c t := by
        unfold overallProgress
        rw [if_neg ht']
        exact (Nat.le_div_iff_mul_le h2t).mpr (by omega)
      omega

/-- C5 amended witness at the concrete input 1 of 1000. -/
theorem progress_boundary_characterization_witness :
    overallProgress 1 1000 = 0 ↔ 200 * 1 < 1000 :=
  (progress_boundary_characterization 1 1000 (by decide) (by decide)).1

/-- C2 counterexample: a response whose only selected_option is the empty
string is complete under the non-null reading of the specification, yet the
code predicate rejects it and the read-triggered reconciliation counts 0
complete controls (and therefore performs no write on dbEmptySel). -/
theorem completeness_truthiness_counterexample :
    specIsCompleteNonNull ctrlOne respEmptySel = true
  ∧ controlIsComplete ctrlOne respEmptySel = false
  ∧ (getAudit dbEmptySel 4 "a3").2 = GetAuditResult.ok auditFresh [respEmptySel] := by
  decide

/-- C2 amended: the reconciler counts a control as complete exactly when the
truthiness predicate holds (positive question count, every entry selected
with a non-null, non-empty option, terminal verdict), and a control with no
questions is never counted complete. -/
theorem completeness_predicate_truthy (c : Control) (r : ResponseDoc) :
    controlIsComplete c r = specIsCompleteTruthy c r
  ∧ (c.questionnaires.length = 0 → controlIsComplete c r = false) := by
  constructor
  · have hfil : r.question_responses.filter (fun qr => truthyStr qr.selected_option)
        = r.question_responses.filter
            (fun qr => qr.selected_option.isSome && qr.selected_option != some "") := by
      refine List.filter_congr ?_
      intro qr _
      cases hqr : qr.selected_option with
      | none => simp [truthyStr, hqr]
      | some s => cases hs : s == "" <;> simp_all [truthyStr, bne]
    unfold controlIsComplete specIsCompleteTruthy terminalStatuses
    rw [hfil]
  · intro h0
    unfold controlIsComplete
    simp [h0]

/-- C2 amended witness on concrete inputs. -/
theorem completeness_predicate_truthy_witness :
    controlIsComplete ctrlOne respComplete = specIsCompleteTruthy ctrlOne respComplete
  ∧ (ctrlOne.questionnaires.length = 0 → controlIsComplete ctrlOne respComplete = false) :=
  completeness_predicate_truthy ctrlOne respComplete

/-- C6: with eleven frameworks of one type, GET /api/frameworks/:type/controls
issues a single membership query carrying all eleven framework ids, exceeding
the 10-value cap stated in its own source comment, while the chunked lookup
used by the other handlers splits the same id list into queries of sizes 10
and 1. -/
theorem typeControls_unchunked_query :
    (getTypeControls dbElevenFrameworks "Cloud").2 = [11]
  ∧ ¬ (11 ≤ 10)
  ∧ listControlsQuerySizes
      ((dbElevenFrameworks.frameworks.filter (fun f => f.2 == "Cloud")).map (fun f => f.1))
      = [10, 1] := by decide

/-- C9: when no response document exists for the pair, the handler still
succeeds, answering Not Answered with question_responses built from the
control definition and null selections throughout. -/
theorem getResponse_absent_defaults (db : DB) (aid cid : String)
    (h : lookupResponse db aid cid = none) :
    (getControlResponse db aid cid).compliance_status = "Not Answered"
  ∧ (getControlResponse db aid cid).question_responses.map (fun qr => qr.question_text)
      = (match db.controls.find? (fun c => c.id == cid) with
          | some cdef => cdef.questionnaires.map (fun q => q.question_text)
          | none => ([] : List String))
  ∧ ∀ qr ∈ (getControlResponse db aid cid).question_responses,
      qr.selected_option = none ∧ qr.option_text = none := by
  simp only [getControlResponse, h]
  cases hf : db.controls.find? (fun c => c.id == cid) with
  | none =>
    refine ⟨trivial, by simp, by simp⟩
  | some cdef =>
    refine ⟨trivial, ?_, ?_⟩
    · rw [List.map_map]
      have : ((fun qr : QuestionResponse => qr.question_text) ∘ fun p : Nat × Question =>
          { question_index := p.1, question_text := p.2.question_text,
            selected_option := none, option_text := none : QuestionResponse })
          = (fun q : Question => q.question_text) ∘ Prod.snd := rfl
      rw [this, ← List.map_map, List.enum_map_snd]
    · intro qr hqr
      simp only [List.mem_map] at hqr
      obtain ⟨p, _, rfl⟩ := hqr
      exact ⟨rfl, rfl⟩

/-- C9 witness: control c2 has no recorded response in dbTwoControls. -/
theorem getResponse_absent_defaults_witness :
    (getControlResponse dbTwoControls "a5" "c2").compliance_status = "Not Answered"
  ∧ (getControlResponse dbTwoControls "a5" "c2").question_responses.map
        (fun qr => qr.question_text)
      = (match dbTwoControls.controls.find? (fun c => c.id == "c2") with
          | some cdef => cdef.questionnaires.map (fun q => q.question_text)
          | none => ([] : List String))
  ∧ ∀ qr ∈ (getControlResponse dbTwoControls "a5" "c2").question_responses,
      qr.selected_option = none ∧ qr.option_text = none :=
  getResponse_absent_defaults dbTwoControls "a5" "c2" (by decide)

/-- C10: a valid response upsert naming a missing audit returns NotFound and
leaves the store untouched, the staged batch never being committed. -/
theorem put_missing_audit_no_mutation (db : DB) (now : Nat) (aid : String)
    (body : PutRequestBody) (cid : String) (qrs : List QuestionResponse)
    (hc : body.control_id = some (some cid)) (hcne : cid ≠ "")
    (hq : body.question_responses = some qrs)
    (h : lookupAudit db aid = none) :
    putAuditResponse db now aid body = (db, PutResult.notFound) := by
  simp [putAuditResponse, hc, hq, h, hcne]

/-- C10 witness: audit id zz is absent from dbSynced. -/
theorem put_missing_audit_no_mutation_witness :
    putAuditResponse dbSynced 3 "zz" putSameBody = (dbSynced, PutResult.notFound) :=
  put_missing_audit_no_mutation dbSynced 3 "zz" putSameBody "c1" [qrAnswered]
    rfl (by decide) rfl (by decide)

theorem putAuditResponse_state_cases (db : DB) (now : Nat) (aid : String)
    (body : PutRequestBody) :
    (putAuditResponse db now aid body).1 = db
  ∨ ∃ cid qrs audit, body.control_id = some (some cid) ∧ cid ≠ "" ∧
      body.question_responses = some qrs ∧ lookupAudit db aid = some audit ∧
      (putAuditResponse db now aid body).1
        = setAudit (setResponseDoc db aid cid (stagedResponse now cid qrs body)) aid
            { audit with
              overall_score := (putSummary db audit aid).1
              overall_status := (putSummary db audit aid).2.1
              completed_controls_in_audit := (putSummary db audit aid).2.2
              updated_at := now } := by
  rcases hbc : body.control_id with _ | oc
  · left
    rcases hbq : body.question_responses with _ | qrs <;>
      simp [putAuditResponse, hbc, hbq]
  · rcases oc with _ | cid
    · left
      rcases hbq : body.question_responses with _ | qrs <;>
        simp [putAuditResponse, hbc, hbq]
    · rcases hbq : body.question_responses with _ | qrs
      · left
        simp [putAuditResponse, hbc, hbq]
      · by_cases hcid : cid = ""
        · left
          simp [putAuditResponse, hbc, hbq, hcid]
        · rcases hla : lookupAudit db aid with _ | audit
          · left
            simp [putAuditResponse, hbc, hbq, hcid, hla]
          · right
            refine ⟨cid, qrs, audit, rfl, hcid, rfl, rfl, ?_⟩
            rw [putAuditResponse_of_valid db now aid audit body cid qrs hla hbc hcid hbq]

theorem createAudit_responses_iff (db : DB) (now : Nat)
    (newId title dty uid comp : String) (audit : AuditDoc)
    (hfresh : ∀ p ∈ db.responses, p.1.1 ≠ newId)
    (hcr : (createAudit db now newId title dty uid comp).2
      = CreateAuditResult.created audit) (cid : String) :
    (lookupResponse (createAudit db now newId title dty uid comp).1 newId cid).isSome
      ↔ cid ∈ (listControlsChunked db.controls audit.frameworks_audited).map
          (fun c => c.id) := by
  unfold createAudit at hcr ⊢
  by_cases hval : (title = "" ∨ dty = "" ∨ uid = "" ∨ comp = "")
  · rw [if_pos hval] at hcr
    exact absurd hcr (by simp)
  · rw [if_neg hval] at hcr ⊢
    by_cases hemp : ((db.frameworks.filter (fun f => f.2 == dty)).map (fun f => f.1)).isEmpty
    · rw [if_pos hemp] at hcr
      exact absurd hcr (by simp)
    · rw [if_neg hemp] at hcr ⊢
      simp only at hcr
      have haud := CreateAuditResult.created.inj hcr
      subst haud
      simp only [lookupResponse]
      rw [List.find?_append]
      have hnone : db.responses.find?
          (fun p => p.1.1 == newId && p.1.2 == cid) = none := by
        rw [List.find?_eq_none]
        intro x hx hpx
        simp only [Bool.and_eq_true, beq_iff_eq] at hpx
        exact hfresh x hx hpx.1
      rw [hnone]
      simp only [Option.none_or, Option.isSome_map']
      rw [List.find?_isSome]
      constructor
      · rintro ⟨x, hx, hpx⟩
        simp only [List.mem_map] at hx
        obtain ⟨cdef, hcdef, rfl⟩ := hx
        simp only [Bool.and_eq_true, beq_iff_eq] at hpx
        exact List.mem_map.mpr ⟨cdef, hcdef, hpx.2⟩
      · intro hmem
        obtain ⟨cdef, hcdef, hid⟩ := List.mem_map.mp hmem
        refine ⟨((newId, cdef.id), initialResponseData cdef),
          List.mem_map.mpr ⟨cdef, hcdef, rfl⟩, ?_⟩
        simp [hid]

/-- C1 counterexample: on dbSynced the persisted summary triple already
equals the recomputed one, yet the write-triggered reconciliation of the
response upsert still writes the audit document, stamping a fresh
updated_at. -/
theorem put_writes_summary_when_unchanged_counterexample :
    (auditSynced.overall_score, auditSynced.overall_status,
        auditSynced.completed_controls_in_audit) = putSummary dbSynced auditSynced "a1"
  ∧ (lookupAudit (putAuditResponse dbSynced 7 "a1" putSameBody).1 "a1").map
        (fun x => x.updated_at) = some 7
  ∧ auditSynced.updated_at = 0
  ∧ (7 : Nat) ≠ 0 := by decide

/-- C1 amended: the read-triggered reconciliation performs no write when the
three recomputed fields equal the persisted ones, and a second read-triggered
reconciliation right after a first one is always a no-op returning the same
data; the write-triggered reconciliation of the response upsert instead
always writes the three summary fields together with a fresh updated_at,
even when nothing changed. -/
theorem read_reconcile_no_write_and_idempotent (db : DB) (now now2 : Nat)
    (aid : String) (audit : AuditDoc) (h : lookupAudit db aid = some audit) :
    ((audit.overall_score, audit.overall_status, audit.completed_controls_in_audit)
        = freshSummary db audit aid
      → getAudit db now aid = (db, GetAuditResult.ok audit (auditResponses db aid)))
  ∧ getAudit (getAudit db now aid).1 now2 aid = getAudit db now aid
  ∧ (∀ body : PutRequestBody, ∀ cid qrs, body.control_id = some (some cid) →
      cid ≠ "" → body.question_responses = some qrs →
      (lookupAudit (putAuditResponse db now aid body).1 aid).map (fun x => x.updated_at)
        = some now) := by
  have hnw : ∀ n, (audit.overall_score, audit.overall_status,
        audit.completed_controls_in_audit) = freshSummary db audit aid →
      getAudit db n aid = (db, GetAuditResult.ok audit (auditResponses db aid)) := by
    intro n hsync
    rw [getAudit_of_lookup db n aid audit h, if_neg]
    push_neg
    exact ⟨congrArg (fun p => p.1) hsync, congrArg (fun p => p.2.1) hsync,
      congrArg (fun p => p.2.2) hsync⟩
  refine ⟨hnw now, ?_, ?_⟩
  · by_cases hcond : (audit.overall_score ≠ (freshSummary db audit aid).1
        ∨ audit.overall_status ≠ (freshSummary db audit aid).2.1
        ∨ audit.completed_controls_in_audit ≠ (freshSummary db audit aid).2.2)
    · let audit2 : AuditDoc := { audit with
        overall_score := (freshSummary db audit aid).1
        overall_status := (freshSummary db audit aid).2.1
        completed_controls_in_audit := (freshSummary db audit aid).2.2
        updated_at := now }
      have h1 : getAudit db now aid
          = (setAudit db aid audit2, GetAuditResult.ok audit2 (auditResponses db aid)) := by
        rw [getAudit_of_lookup db now aid audit h, if_pos hcond]
      have hl1 : lookupAudit (setAudit db aid audit2) aid = some audit2 :=
        lookupAudit_setAudit_self db aid audit2 (by rw [h]; rfl)
      rw [h1]
      show getAudit (setAudit db aid audit2) now2 aid
        = (setAudit db aid audit2, GetAuditResult.ok audit2 (auditResponses db aid))
      rw [getAudit_of_lookup (setAudit db aid audit2) now2 aid audit2 hl1, if_neg]
      · rfl
      · push_neg
        exact ⟨rfl, rfl, rfl⟩
    · have hsync : (audit.overall_score, audit.overall_status,
          audit.completed_controls_in_audit) = freshSummary db audit aid := by
        push_neg at hcond
        obtain ⟨h1, h2, h3⟩ := hcond
        rw [h1, h2, h3]
      rw [hnw now hsync]
      exact hnw now2 hsync
  · intro body cid qrs hc hcne hq
    rw [putAuditResponse_of_valid db now aid audit body cid qrs h hc hcne hq]
    have hl2 := lookupAudit_setAudit_self
      (setResponseDoc db aid cid (stagedResponse now cid qrs body)) aid
      { audit with
        overall_score := (putSummary db audit aid).1
        overall_status := (putSummary db audit aid).2.1
        completed_controls_in_audit := (putSummary db audit aid).2.2
        updated_at := now }
      (by rw [lookupAudit_setResponseDoc, h]; rfl)
    rw [hl2]
    rfl

/-- C1 amended witness: a second read of audit a1 right after a first one. -/
theorem read_reconcile_no_write_and_idempotent_witness :
    getAudit (getAudit dbSynced 7 "a1").1 8 "a1" = getAudit dbSynced 7 "a1" :=
  (read_reconcile_no_write_and_idempotent dbSynced 7 8 "a1" auditSynced (by decide)).2.1

/-- C3 counterexample: audit a2 snapshotted total_controls_in_audit = 2, the
catalog now holds a single control for its frameworks, and the read-triggered
reconciliation reports progress 100 = round(100 * 1 / 1), not the 50 the
snapshot denominator would give. -/
theorem read_reconcile_denominator_counterexample :
    auditStale.total_controls_in_audit = 2
  ∧ (listControlsChunked dbStale.controls auditStale.frameworks_audited).length = 1
  ∧ resultScore (getAudit dbStale 5 "a2").2 = some 100
  ∧ overallProgress 1 auditStale.total_controls_in_audit = 50
  ∧ (100 : Nat) ≠ 50 := by decide

/-- C3 amended: the write-triggered reconciliation divides by the stored
total_controls_in_audit snapshot, but the read-triggered reconciliation
divides by the number of controls currently found in the catalog for the
audited frameworks. -/
theorem reconcile_denominator_sources (db : DB) (now : Nat) (aid : String)
    (audit : AuditDoc) (body : PutRequestBody) (cid : String)
    (qrs : List QuestionResponse)
    (h : lookupAudit db aid = some audit)
    (hc : body.control_id = some (some cid)) (hcne : cid ≠ "")
    (hq : body.question_responses = some qrs) :
    resultScore (getAudit db now aid).2 = some (freshSummary db audit aid).1
  ∧ (putAuditResponse db now aid body).2
      = PutResult.ok (putSummary db audit aid).1 (putSummary db audit aid).2.1
  ∧ (freshSummary db audit aid).1
      = overallProgress
          (countCompleted (listControlsChunked db.controls audit.frameworks_audited)
            (auditResponses db aid))
          (listControlsChunked db.controls audit.frameworks_audited).length
  ∧ (putSummary db audit aid).1
      = overallProgress
          (countCompleted (listControlsChunked db.controls audit.frameworks_audited)
            (auditResponses db aid))
          audit.total_controls_in_audit := by
  refine ⟨?_, ?_, rfl, rfl⟩
  · rw [getAudit_of_lookup db now aid audit h]
    by_cases hcond : (audit.overall_score ≠ (freshSummary db audit aid).1
        ∨ audit.overall_status ≠ (freshSummary db audit aid).2.1
        ∨ audit.completed_controls_in_audit ≠ (freshSummary db audit aid).2.2)
    · rw [if_pos hcond]
      rfl
    · rw [if_neg hcond]
      push_neg at hcond
      rw [resultScore, hcond.1]
  · rw [putAuditResponse_of_valid db now aid audit body cid qrs h hc hcne hq]

/-- C3 amended witness on the concrete store dbStale. -/
theorem reconcile_denominator_sources_witness :
    resultScore (getAudit dbStale 5 "a2").2 = some (freshSummary dbStale auditStale "a2").1
  ∧ (putAuditResponse dbStale 5 "a2" putSameBody).2
      = PutResult.ok (putSummary dbStale auditStale "a2").1
          (putSummary dbStale auditStale "a2").2.1
  ∧ (freshSummary dbStale auditStale "a2").1
      = overallProgress
          (countCompleted (listControlsChunked dbStale.controls auditStale.frameworks_audited)
            (auditResponses dbStale "a2"))
          (listControlsChunked dbStale.controls auditStale.frameworks_audited).length
  ∧ (putSummary dbStale auditStale "a2").1
      = overallProgress
          (countCompleted (listControlsChunked dbStale.controls auditStale.frameworks_audited)
            (auditResponses dbStale "a2"))
          auditStale.total_controls_in_audit :=
  reconcile_denominator_sources dbStale 5 "a2" auditStale putSameBody "c1" [qrAnswered]
    (by decide) rfl (by decide) rfl

/-- C7 counterexample: the stored justification of c1 is a non-null string;
an upsert that does not mention justification_text at all overwrites it with
null instead of leaving it untouched. -/
theorem upsert_clears_unsupplied_field_counterexample :
    (lookupResponse dbSynced "a1" "c1").map (fun r => r.justification_text)
      = some (some "keep")
  ∧ (lookupResponse (putAuditResponse dbSynced 9 "a1" putNoJust).1 "a1" "c1").map
        (fun r => r.justification_text) = some none := by decide

/-- C7 amended: the upsert writes every listed field on every call, the
stored document being exactly the staged one computed from the request alone:
compliance_status becomes the supplied value when it is a non-empty string
and Not Answered otherwise, every other listed field becomes the supplied
value when it is a non-empty string and null otherwise; so both an absent
field and an explicit null end up as null, and nothing of the previous
document survives. -/
theorem upsert_field_write_semantics (db : DB) (now : Nat) (aid : String)
    (audit : AuditDoc) (body : PutRequestBody) (cid : String)
    (qrs : List QuestionResponse)
    (h : lookupAudit db aid = some audit)
    (hc : body.control_id = some (some cid)) (hcne : cid ≠ "")
    (hq : body.question_responses = some qrs) :
    lookupResponse (putAuditResponse db now aid body).1 aid cid
      = some (stagedResponse now cid qrs body)
  ∧ jsOrNull none = none
  ∧ jsOrNull (some none) = none
  ∧ (∀ s : String, s ≠ "" → jsOrNull (some (some s)) = some s) := by
  refine ⟨?_, rfl, rfl, ?_⟩
  · rw [putAuditResponse_of_valid db now aid audit body cid qrs h hc hcne hq]
    rw [lookupResponse_setAudit]
    exact lookupResponse_setResponseDoc_self db aid cid (stagedResponse now cid qrs body)
  · intro s hs
    simp [jsOrNull, hs]

/-- C7 amended witness: the upsert of putNoJust stores exactly its staged
document. -/
theorem upsert_field_write_semantics_witness :
    lookupResponse (putAuditResponse dbSynced 9 "a1" putNoJust).1 "a1" "c1"
      = some (stagedResponse 9 "c1" [qrAnswered] putNoJust) :=
  (upsert_field_write_semantics dbSynced 9 "a1" auditSynced putNoJust "c1" [qrAnswered]
    (by decide) rfl (by decide) rfl).1

/-- C8 counterexample: dbSynced satisfies the one-response-per-catalog-control
invariant, control id c9 belongs to no catalog control at all, yet a response
upsert naming c9 creates a response document for it under audit a1. -/
theorem foreign_control_response_counterexample :
    dbSynced.responses.map (fun p => p.1) = [("a1", "c1")]
  ∧ (listControlsChunked dbSynced.controls auditSynced.frameworks_audited).map
        (fun c => c.id) = ["c1"]
  ∧ (∀ c ∈ dbSynced.controls, c.id ≠ "c9")
  ∧ lookupResponse dbSynced "a1" "c9" = none
  ∧ (lookupResponse (putAuditResponse dbSynced 6 "a1" bodyForeign).1 "a1" "c9").isSome
      = true := by decide

/-- C8 amended: audit creation seeds exactly one response per control fetched
for the audited frameworks; a response upsert never removes an existing
response document and adds at most a document for the control id it names,
without checking that this id belongs to the audited frameworks. -/
theorem response_set_evolution :
    (∀ (db : DB) (now : Nat) (newId title dty uid comp : String) (audit : AuditDoc),
      (∀ p ∈ db.responses, p.1.1 ≠ newId) →
      (createAudit db now newId title dty uid comp).2 = CreateAuditResult.created audit →
      ∀ cid, ((lookupResponse (createAudit db now newId title dty uid comp).1 newId cid).isSome
        ↔ cid ∈ (listControlsChunked db.controls audit.frameworks_audited).map (fun c => c.id)))
  ∧ (∀ (db : DB) (now : Nat) (aid : String) (body : PutRequestBody) (a c : String),
      (lookupResponse db a c).isSome →
      (lookupResponse (putAuditResponse db now aid body).1 a c).isSome)
  ∧ (∀ (db : DB) (now : Nat) (aid : String) (body : PutRequestBody) (a c : String),
      (lookupResponse (putAuditResponse db now aid body).1 a c).isSome →
      (lookupResponse db a c).isSome ∨ (a = aid ∧ body.control_id = some (some c))) := by
  refine ⟨fun db now newId title dty uid comp audit hfresh hcr cid =>
    createAudit_responses_iff db now newId title dty uid comp audit hfresh hcr cid,
    ?_, ?_⟩
  · intro db now aid body a c hsome
    rcases putAuditResponse_state_cases db now aid body with heq |
      ⟨cid, qrs, audit, _, _, _, _, heq⟩
    · rw [heq]
      exact hsome
    · rw [heq, lookupResponse_setAudit]
      by_cases hkey : (aid = a ∧ cid = c)
      · rw [hkey.1, hkey.2] at *
        rw [lookupResponse_setResponseDoc_self]
        rfl
      · rw [lookupResponse_setResponseDoc_other db aid cid a c _ hkey]
        exact hsome
  · intro db now aid body a c hsome
    rcases putAuditResponse_state_cases db now aid body with heq |
      ⟨cid, qrs, audit, hbc, _, _, _, heq⟩
    · rw [heq] at hsome
      exact Or.inl hsome
    · rw [heq, lookupResponse_setAudit] at hsome
      by_cases hkey : (aid = a ∧ cid = c)
      · right
        refine ⟨hkey.1.symm, ?_⟩
        rw [← hkey.2]
        exact hbc
      · rw [lookupResponse_setResponseDoc_other db aid cid a c _ hkey] at hsome
        exact Or.inl hsome

/-- C8 amended witness: the upsert of bodyForeign preserves the existing
response of control c1. -/
theorem response_set_evolution_witness :
    (lookupResponse (putAuditResponse dbSynced 6 "a1" bodyForeign).1 "a1" "c1").isSome :=
  response_set_evolution.2.1 dbSynced 6 "a1" bodyForeign "a1" "c1" (by decide)
